import Mathlib

/-!
Verification development for the `pagespeed` monitoring dashboard
(`src/ai_service.py`, `src/app.py`, `src/azure_service.py`,
`src/newrelic_service.py`).

The Python code is shallowly embedded: JSON-like Python values become the
`JValue` inductive with Python truthiness (`pyTruthy`); `dict.get` becomes
`dictGet` (returning `JValue.null` for a missing key, as `get` returns
`None`); Python `x or y` becomes `pyOr`.  Network interactions are
parameters describing the upstream outcome (a response payload or a raised
exception), so every embedded function is a total, executable Lean
function of its inputs and of that outcome.  Wall-clock instants
(`datetime.now()`) are integer parameters measured in seconds.
-/

/-- Keys of a Python dict as used by the code: the JSON decoder produces
string keys, while `_extract_percentiles` also probes integer keys
(`percentile_dict.get(50)`); the two are distinct dict keys in Python. -/
inductive JKey
  | str (s : String)
  | int (n : Int)
deriving DecidableEq

/-- JSON-like Python values.  Numbers are modelled as integers (the claims
under study only involve integral measurements; float rounding is out of
scope).  `null` doubles as Python `None`. -/
inductive JValue
  | null
  | bool (b : Bool)
  | num (n : Int)
  | str (s : String)
  | arr (elems : List JValue)
  | obj (fields : List (JKey × JValue))

/-- A Python dict, in insertion order (Python dicts preserve it and
`list(result.keys())[0]` depends on it). -/
abbrev PyDict := List (JKey × JValue)

/-- Python truthiness of a value: `None`, `False`, `0`, `""`, `[]` and
an empty dict are falsy, everything else is truthy. -/
def pyTruthy : JValue → Bool
  | .null => false
  | .bool b => b
  | .num n => n != 0
  | .str s => !s.data.isEmpty
  | .arr elems => !elems.isEmpty
  | .obj fields => !fields.isEmpty

/-- Truthiness of a dict used as a whole (`if not newrelic_data`). -/
def pyTruthyDict (d : PyDict) : Bool := !d.isEmpty

/-- `d.get(k)`: the first binding of `k`, or `None` when absent (Python
dicts cannot bind a key twice, so first-match lookup is exact). -/
def dictGet : PyDict → JKey → JValue
  | [], _ => .null
  | (k', v) :: rest, k => if k' = k then v else dictGet rest k

/-- Python `a or b`: `a` when truthy, else `b`. -/
def pyOr (a b : JValue) : JValue := if pyTruthy a then a else b

/-! String helpers.  They operate on `String.data` so that every
definition reduces inside the kernel (the built-in `String.map`,
`String.split`, ... do not). -/

/-- `str.lower()` (ASCII, which is all the code compares). -/
def lowerStr (s : String) : String := ⟨s.data.map Char.toLower⟩

/-- Accumulator for `pySplitWs`: splits at whitespace runs, dropping
empty pieces, exactly like Python `str.split()` with no argument. -/
def splitWsAux (cur : List Char) : List Char → List (List Char)
  | [] => if cur.isEmpty then [] else [cur.reverse]
  | c :: rest =>
    if c.isWhitespace then
      if cur.isEmpty then splitWsAux [] rest else cur.reverse :: splitWsAux [] rest
    else splitWsAux (c :: cur) rest

/-- Python `str.split()` (no separator): split on whitespace runs. -/
def pySplitWs (s : String) : List String := (splitWsAux [] s.data).map (fun l => ⟨l⟩)

/-- Python `needle in hay` on strings: substring containment. -/
def strContains (hay needle : String) : Bool := decide (needle.data <:+: hay.data)

/-- Suffix test on strings (`str.endswith`). -/
def strEndsWith (s t : String) : Bool := decide (t.data <:+ s.data)

/-- Prefix test on strings (`str.startswith`). -/
def strStartsWith (s t : String) : Bool := decide (t.data <+: s.data)

/-- KQL `endswith` is case-insensitive. -/
def kqlEndsWith (s t : String) : Bool := strEndsWith (lowerStr s) (lowerStr t)

/-- KQL `startswith` is case-insensitive. -/
def kqlStartsWith (s t : String) : Bool := strStartsWith (lowerStr s) (lowerStr t)

/-- KQL `contains` is case-insensitive. -/
def kqlContains (s t : String) : Bool := decide ((lowerStr t).data <:+: (lowerStr s).data)

/-- Decimal digits of `n`, most significant first; `fuel` bounds the
recursion depth so the definition is structural (any `fuel > n` is
enough, see `natRepr`). -/
def natToDigitsAux (fuel : Nat) (n : Nat) : List Char :=
  match fuel with
  | 0 => []
  | fuel' + 1 =>
    if n < 10 then [Nat.digitChar n]
    else natToDigitsAux fuel' (n / 10) ++ [Nat.digitChar (n % 10)]

/-- Decimal rendering of a natural number. -/
def natRepr (n : Nat) : String := ⟨natToDigitsAux (n + 1) n⟩

/-- Decimal rendering of an integer, as `str`/`json.dumps` print it. -/
def intRepr (i : Int) : String := if i < 0 then "-" ++ natRepr i.natAbs else natRepr i.toNat

/-- Rendering of a dict key under `json.dumps` (integer keys are coerced
to their decimal string). -/
def jsonKeyStr : JKey → String
  | .str s => s
  | .int n => intRepr n

/-- Abstraction of `json.dumps(value, indent=2, default=str)`: a
serialization of the value.  Whitespace layout and escaping are
simplified (no claim depends on them); what matters for the proofs is
which value is rendered and that the rendering of any value starts with
`"`/digit/`-`/`n`/`t`/`f`/`[`/an opening brace — never with `*`. -/
def jsonDumps : JValue → String
  | .null => "null"
  | .bool true => "true"
  | .bool false => "false"
  | .num n => intRepr n
  | .str s => "\"" ++ s ++ "\""
  | .arr elems => "[" ++ String.intercalate ", " (elems.attach.map (fun x => jsonDumps x.1)) ++ "]"
  | .obj fields =>
      "\x7b" ++ String.intercalate ", "
        (fields.attach.map (fun x => "\"" ++ jsonKeyStr x.1.1 ++ "\": " ++ jsonDumps x.1.2)) ++ "\x7d"
termination_by v => sizeOf v
decreasing_by
  · have h := List.sizeOf_lt_of_mem x.2
    simp only [JValue.arr.sizeOf_spec]
    omega
  · obtain ⟨⟨k, v⟩, hmem⟩ := x
    have h := List.sizeOf_lt_of_mem hmem
    simp only [Prod.mk.sizeOf_spec] at h
    simp only [JValue.obj.sizeOf_spec]
    omega

/-! Embedding of `src/ai_service.py`. -/

/-- `ClaudeService.__init__` state: the API key (`None` or a string; both
`None` and `""` are falsy) and the model id. -/
structure ClaudeService where
  api_key : Option String
  model : String

/-- `OpenAIService.__init__` state. -/
structure OpenAIService where
  api_key : Option String
  model : String

/-- Python truthiness of `self.api_key` negated (`if not self.api_key`). -/
def pyFalsyKey : Option String → Bool
  | none => true
  | some s => s.data.isEmpty

/-- One block of an Anthropic response's `message.content`. -/
structure ContentBlock where
  type : String
  text : String

/-- Outcome of the network interaction performed inside
`ClaudeService.analyze`, one case per `except` clause of the source:
either a response message, or one of the exceptions the code
distinguishes (`anthropic.AuthenticationError`, `anthropic.RateLimitError`,
`anthropic.APIError`, any other `Exception`). -/
inductive ClaudeCallOutcome
  | ok (content : List ContentBlock) (input_tokens output_tokens : Nat)
  | authenticationError
  | rateLimitError
  | apiError (msg : String)
  | unexpected (msg : String)

/-- Outcome of the network interaction inside `OpenAIService.analyze`:
a completion, or a raised `Exception` rendered by `str(e)` (the source
classifies it only by substring tests on that string). -/
inductive OpenAICallOutcome
  | ok (content : String) (prompt_tokens completion_tokens : Nat)
  | raises (msg : String)

/-- Return value of the provider `analyze` methods: the
`dict` is either a success record or an error record (`spec`'s
`ProviderResult` tagged union). -/
inductive AIResult
  | success (analysis : String) (model : String) (usage : List (String × Nat))
  | error (msg : String)
deriving DecidableEq

/-- `ClaudeService.analyze`: a missing/empty key short-circuits into the
"not configured" error before any call is attempted; otherwise the
call outcome is converted — text blocks concatenated on success, each
exception class caught and mapped to its error record. -/
def claude_analyze (svc : ClaudeService) (call : ClaudeCallOutcome) : AIResult :=
  if pyFalsyKey svc.api_key then .error "Claude API key not configured"
  else
    match call with
    | .ok content i o =>
        .success (String.join ((content.filter (fun b => b.type == "text")).map (fun b => b.text)))
          svc.model [("input_tokens", i), ("output_tokens", o)]
    | .authenticationError => .error "Invalid Claude API key"
    | .rateLimitError => .error "Claude API rate limit exceeded. Please try again shortly."
    | .apiError m => .error ("Claude API error: " ++ m)
    | .unexpected m => .error ("Error calling Claude API: " ++ m)

/-- `OpenAIService.analyze`: missing/empty key short-circuits; a raised
exception is classified by case-insensitive substring tests on `str(e)`. -/
def openai_analyze (svc : OpenAIService) (call : OpenAICallOutcome) : AIResult :=
  if pyFalsyKey svc.api_key then .error "OpenAI API key not configured"
  else
    match call with
    | .ok content p c =>
        .success content svc.model [("prompt_tokens", p), ("completion_tokens", c)]
    | .raises m =>
        if strContains (lowerStr m) "authentication" || strContains (lowerStr m) "api key" then
          .error "Invalid OpenAI API key"
        else if strContains (lowerStr m) "rate limit" then
          .error "OpenAI API rate limit exceeded. Please try again shortly."
        else .error ("Error calling OpenAI API: " ++ m)

/-- The `results` dict of `run_parallel_analysis`, initialised to
`'claude': None, 'openai': None`; `none` is the untouched `None`. -/
structure AIResults where
  claude : Option AIResult
  openai : Option AIResult
deriving DecidableEq

/-- The executor loop of `run_parallel_analysis`: each submitted job is
observed through `future.result()`, which either returns the provider's
dict (`Except.ok`) or re-raises an exception from the worker
(`Except.error`, carrying `str(e)`); the loop catches the latter into a
scoped error record.  `none` means the provider was not submitted (its
service argument was `None`).  The two branches write distinct keys, so
the `as_completed` arrival order is irrelevant and the fan-in is modelled
as the pair of independent conversions. -/
def run_parallel_jobs (claude_job openai_job : Option (Except String AIResult)) : AIResults where
  claude :=
    claude_job.map fun j =>
      match j with
      | .ok r => r
      | .error e => .error ("Unexpected error from claude: " ++ e)
  openai :=
    openai_job.map fun j =>
      match j with
      | .ok r => r
      | .error e => .error ("Unexpected error from openai: " ++ e)

/-- `run_parallel_analysis(claude_service, openai_service, ...)`: submits
`analyze` for each non-`None` service.  Both `analyze` bodies end in a
catch-all `except Exception`, so a submitted job always returns a dict —
hence each submitted job is an `Except.ok` of the corresponding
`analyze` result. -/
def run_parallel_analysis (claude_service : Option ClaudeService)
    (openai_service : Option OpenAIService)
    (ccall : ClaudeCallOutcome) (ocall : OpenAICallOutcome) : AIResults :=
  run_parallel_jobs
    (claude_service.map fun svc => .ok (claude_analyze svc ccall))
    (openai_service.map fun svc => .ok (openai_analyze svc ocall))

/-! Embedding of `build_user_message` (`src/ai_service.py`, lines 314-351). -/

/-- The "no data" marker appended when both source dicts are falsy. -/
def noDataMarker : String := "*No performance data was available from either source.*"

/-- The fixed header lines that `build_user_message` always emits. -/
def headerSections (url time_range : String) : List String :=
  ["# Performance Analysis Request",
   "**URL:** " ++ url,
   "**Time Range:** " ++ time_range,
   ""]

/-- The Core Web Vitals block: present exactly when
`newrelic_data.get('core_web_vitals')` is truthy, else nothing. -/
def cwvSections (newrelic_data : PyDict) : List String :=
  if pyTruthy (dictGet newrelic_data (.str "core_web_vitals")) then
    ["## New Relic: Core Web Vitals",
     jsonDumps (dictGet newrelic_data (.str "core_web_vitals")),
     ""]
  else []

/-- The IIS-log block: present exactly when
`iis_data.get('slow_requests')` is truthy. -/
def slowSections (iis_data : PyDict) : List String :=
  if pyTruthy (dictGet iis_data (.str "slow_requests")) then
    ["## IIS Logs: Requests for this URL",
     jsonDumps (dictGet iis_data (.str "slow_requests")),
     ""]
  else []

/-- The marker block: present exactly when both argument dicts are falsy
(`if not newrelic_data and not iis_data`). -/
def markerSections (newrelic_data iis_data : PyDict) : List String :=
  if !pyTruthyDict newrelic_data && !pyTruthyDict iis_data then [noDataMarker] else []

/-- The `sections` list of `build_user_message`, mirroring the imperative
appends of the source line by line (the comment in the source states that
`performance_overview` and `apm_metrics` are deliberately not rendered). -/
def buildSections (url time_range : String) (newrelic_data iis_data : PyDict) : List String :=
  let sections := headerSections url time_range
  let sections :=
    if pyTruthy (dictGet newrelic_data (.str "core_web_vitals")) then
      sections ++ ["## New Relic: Core Web Vitals",
                   jsonDumps (dictGet newrelic_data (.str "core_web_vitals")),
                   ""]
    else sections
  let sections :=
    if pyTruthy (dictGet iis_data (.str "slow_requests")) then
      sections ++ ["## IIS Logs: Requests for this URL",
                   jsonDumps (dictGet iis_data (.str "slow_requests")),
                   ""]
    else sections
  if !pyTruthyDict newrelic_data && !pyTruthyDict iis_data then sections ++ [noDataMarker]
  else sections

/-- `build_user_message`: the sections joined by newlines. -/
def build_user_message (url time_range : String) (newrelic_data iis_data : PyDict) : String :=
  String.intercalate "\n" (buildSections url time_range newrelic_data iis_data)

/-! Embedding of `src/newrelic_service.py`. -/

/-- The dict returned by `_extract_percentiles`
(`p50`/`p75`/`p90`, each possibly `None`). -/
structure Percentiles where
  p50 : JValue
  p75 : JValue
  p90 : JValue

/-- `NewRelicService._extract_percentiles(results)` (lines 181-236).
Empty input gives all-`None`; otherwise the first key of the first row is
inspected: a nested dict yields `pd.get('50') or pd.get(50)` (and 75/90
alike), any other value becomes `p50` alone, an empty first row leaves
all three `None`. -/
def _extract_percentiles (results : List PyDict) : Percentiles :=
  match results with
  | [] => ⟨.null, .null, .null⟩
  | result :: _ =>
    match result with
    | [] => ⟨.null, .null, .null⟩
    | (_, percentile_dict) :: _ =>
      match percentile_dict with
      | .obj pd =>
          ⟨pyOr (dictGet pd (.str "50")) (dictGet pd (.int 50)),
           pyOr (dictGet pd (.str "75")) (dictGet pd (.int 75)),
           pyOr (dictGet pd (.str "90")) (dictGet pd (.int 90))⟩
      | v => ⟨v, .null, .null⟩

/-- Exceptions raised by the parsers of `time_range` strings. -/
inductive PyError
  | indexError
  | valueError
deriving DecidableEq

/-- CPython `int(str)` on a whitespace-free token: optional sign then a
nonempty digit string (the tokens parsed here come from `str.split()`,
so surrounding whitespace and underscore separators never occur). -/
def pyInt (s : String) : Option Int :=
  match s.data with
  | [] => none
  | '+' :: rest =>
    if rest ≠ [] ∧ rest.all Char.isDigit then
      some (Int.ofNat (rest.foldl (fun acc c => acc * 10 + (c.toNat - 48)) 0))
    else none
  | '-' :: rest =>
    if rest ≠ [] ∧ rest.all Char.isDigit then
      some (-(Int.ofNat (rest.foldl (fun acc c => acc * 10 + (c.toNat - 48)) 0)))
    else none
  | cs =>
    if cs.all Char.isDigit then
      some (Int.ofNat (cs.foldl (fun acc c => acc * 10 + (c.toNat - 48)) 0))
    else none

/-- `NewRelicService._parse_time_range_minutes` (lines 238-250): no
`try`, so a missing token raises `IndexError` and a non-numeric leading
token raises `ValueError`; an unrecognised unit falls through to 60. -/
def _parse_time_range_minutes (time_range : String) : Except PyError Int :=
  match pySplitWs (lowerStr time_range) with
  | [] => .error .indexError
  | p0 :: rest =>
    match pyInt p0 with
    | none => .error .valueError
    | some value =>
      match rest with
      | [] => .error .indexError
      | unit :: _ =>
        .ok (if strContains unit "hour" then value * 60
             else if strContains unit "minute" then value
             else if strContains unit "day" then value * 1440
             else 60)

/-! Embedding of `src/app.py`, line 1028-1042. -/

/-- `_parse_time_range_to_minutes`: same parse as
`_parse_time_range_minutes`, but the body sits in a
`try ... except (IndexError, ValueError)` that falls back to 60. -/
def _parse_time_range_to_minutes (time_range : String) : Int :=
  match pySplitWs (lowerStr time_range) with
  | [] => 60
  | p0 :: rest =>
    match pyInt p0 with
    | none => 60
    | some value =>
      match rest with
      | [] => 60
      | unit :: _ =>
        if strContains unit "hour" then value * 60
        else if strContains unit "minute" then value
        else if strContains unit "day" then value * 1440
        else 60

/-! Embedding of `src/azure_service.py`. -/

/-- The token cache fields of `AzureLogAnalyticsService`
(`self.token`, `self.token_expiry`), both initialised to `None`.
Instants are integers (seconds). -/
structure AzureTokenCache where
  token : Option String
  token_expiry : Option Int
deriving DecidableEq

/-- Outcome of the OAuth token POST inside `_get_token`: the parsed JSON
body (`access_token`, plus `expires_in` defaulting to 3600 when absent),
a `requests` exception, or a body missing `access_token` / that is not
JSON. -/
inductive TokenFetchOutcome
  | ok (access_token : String) (expires_in : Option Int)
  | requestError (msg : String)
  | invalidResponse (msg : String)

/-- Result of `_get_token`: a token string or an error dict. -/
inductive TokenResult
  | tok (t : String)
  | err (msg : String)
deriving DecidableEq

/-- Observable outcome of one `_get_token` call: the returned value, the
cache state afterwards, and whether the token endpoint was contacted
(`fetched` is `true` exactly when the POST in the source is executed). -/
structure GetTokenStep where
  result : TokenResult
  state : AzureTokenCache
  fetched : Bool
deriving DecidableEq

/-- The acquisition branch of `_get_token`: on success the cache is set to
the new token with expiry `now + (expires_in - 60)` seconds; on failure an
error dict is returned and the cache is left unchanged. -/
def _acquire_token (st : AzureTokenCache) (now : Int) (fetch : TokenFetchOutcome) : GetTokenStep :=
  match fetch with
  | .ok access_token expires_in =>
      ⟨.tok access_token,
       ⟨some access_token, some (now + (expires_in.getD 3600) - 60)⟩,
       true⟩
  | .requestError m => ⟨.err ("Failed to acquire Azure token: " ++ m), st, true⟩
  | .invalidResponse m => ⟨.err ("Invalid token response from Azure: " ++ m), st, true⟩

/-- `_get_token` (lines 18-46): serve the cached token while
`self.token and self.token_expiry and now < self.token_expiry`
(a string token is truthy iff nonempty; a datetime is always truthy),
otherwise run the acquisition branch. -/
def _get_token (st : AzureTokenCache) (now : Int) (fetch : TokenFetchOutcome) : GetTokenStep :=
  match st.token, st.token_expiry with
  | some t, some e =>
      if t ≠ "" ∧ now < e then ⟨.tok t, st, false⟩
      else _acquire_token st now fetch
  | _, _ => _acquire_token st now fetch

/-- One `W3CIISLog` row, restricted to the columns the `search_logs`
query filters on or projects. -/
structure IISRow where
  timeGenerated : Int
  csMethod : String
  csUriStem : String
  csUriQuery : String
  scStatus : String
  timeTaken : Int
  cIP : String
  sSiteName : String
  scBytes : Int
deriving DecidableEq

/-- The static-asset suffixes excluded by the fixed `!endswith` filters of
`search_logs` (lines 168-180). -/
def static_extensions : List String :=
  [".css", ".js", ".png", ".jpg", ".gif", ".ico", ".woff", ".woff2", ".svg", ".map"]

/-- KQL semantics of the `| where` pipeline built by `search_logs`: the
time window, the ten unconditional `!endswith` exclusions, then the three
optional narrowing filters appended when their argument is truthy
(a one-character status code becomes a `startswith` class match,
anything longer an exact `==`).  KQL `endswith`/`startswith`/`contains`
are case-insensitive; `==` is exact. -/
def search_logs_pred (start_date end_date : Int)
    (url_filter status_code site_name : Option String) (r : IISRow) : Bool :=
  (decide (start_date ≤ r.timeGenerated) && decide (r.timeGenerated ≤ end_date))
  && static_extensions.all (fun ext => !kqlEndsWith r.csUriStem ext)
  && (match url_filter with
      | some uf => if uf.data.isEmpty then true else kqlContains r.csUriStem uf
      | none => true)
  && (match status_code with
      | some sc =>
          if sc.data.isEmpty then true
          else if sc.length == 1 then kqlStartsWith r.scStatus sc
          else r.scStatus == sc
      | none => true)
  && (match site_name with
      | some sn => if sn.data.isEmpty then true else r.sSiteName == sn
      | none => true)

/-- Insertion step for `| order by TimeGenerated desc`. -/
def insertByTimeDesc (a : IISRow) : List IISRow → List IISRow
  | [] => [a]
  | b :: bs =>
    if a.timeGenerated ≤ b.timeGenerated then b :: insertByTimeDesc a bs
    else a :: b :: bs

/-- Sorting by `TimeGenerated` descending (`| order by TimeGenerated desc`;
KQL leaves tie order unspecified, and only the ordering facts below are
used). -/
def sortByTimeDesc : List IISRow → List IISRow
  | [] => []
  | a :: rest => insertByTimeDesc a (sortByTimeDesc rest)

/-- `search_logs` (lines 152-223), as evaluated by the workspace on a
table of rows: `| where` filters, `| project` (identity on the modelled
columns), `| order by TimeGenerated desc`, `| take limit`.  The returned
value is the `logs` list of the success dict (`count` is its length and
the `metadata` echo carries no information). -/
def search_logs (start_date end_date : Int)
    (url_filter status_code site_name : Option String) (limit : Nat)
    (table : List IISRow) : List IISRow :=
  (sortByTimeDesc (table.filter
      (search_logs_pred start_date end_date url_filter status_code site_name))).take limit

/-- One table of a Log Analytics response; `columns` holds the declared
column names (`col['name']` in the source). -/
structure AzureTable where
  columns : List String
  rows : List (List JValue)

/-- A Log Analytics query response body (`response['tables']`). -/
structure AzureResponse where
  tables : List AzureTable

/-- `_parse_table_response` (lines 93-112): zip the first table's column
names with each row array; no table yields an empty list. -/
def _parse_table_response (response : AzureResponse) : List (List (String × JValue)) :=
  match response.tables with
  | [] => []
  | table :: _ => table.rows.map (fun row => List.zip table.columns row)

/-- String-keyed row lookup with default (`row.get(k, d)`). -/
def rowGet (row : List (String × JValue)) (k : String) (d : JValue) : JValue :=
  match row with
  | [] => d
  | (k', v) :: rest => if k' = k then v else rowGet rest k d

/-- Numeric reading of a row value (the aggregation rows carry numbers;
a non-numeric value would raise in Python and is out of scope). -/
def jvToQ : JValue → ℚ
  | .num n => (n : ℚ)
  | _ => 0

/-- Integer reading of a row value, as used for `Count` sums. -/
def jvToInt : JValue → Int
  | .num n => n
  | _ => 0

/-- Round-half-to-even on rationals, CPython's `round` on exact values
(binary floating-point artefacts are out of scope). -/
def roundHalfEven (q : ℚ) : Int :=
  let f : Int := q.floor
  let r : ℚ := q - (f : ℚ)
  if r < 1/2 then f
  else if 1/2 < r then f + 1
  else if f % 2 = 0 then f else f + 1

/-- Python `round(x, 1)`. -/
def pyRound1 (q : ℚ) : ℚ := ((roundHalfEven (q * 10) : ℚ)) / 10

/-- The `summary` dict built from the first row of the summary query
(lines 292-304); `none` when the query returned no rows (the Python
summary stays `{}`). -/
structure DashSummaryStats where
  totalRequests : JValue
  errorCount4xx : JValue
  errorCount5xx : JValue
  avgTimeTaken : ℚ
  p50TimeTaken : ℚ
  p90TimeTaken : ℚ
  p99TimeTaken : ℚ
  maxTimeTaken : ℚ

/-- One formatted entry of `topPages` (lines 307-313). -/
structure TopPageEntry where
  url : JValue
  requestCount : JValue
  avgTimeTaken : ℚ

/-- One formatted entry of `statusDistribution` (lines 316-324). -/
structure StatusBucket where
  statusCode : JValue
  count : JValue
  percentage : ℚ

/-- The composed success payload of `get_dashboard_summary`. -/
structure DashboardSummary where
  summary : Option DashSummaryStats
  topPages : List TopPageEntry
  statusDistribution : List StatusBucket

/-- The composition section of `get_dashboard_summary` (lines 286-335),
run only after all three queries succeeded: summary stats from the first
summary row, formatted top pages, and the status histogram with
per-bucket percentage against the total count (0 when the total is 0). -/
def dashboard_compose (summary_rows top_pages status_dist : List (List (String × JValue))) :
    DashboardSummary :=
  let summary :=
    match summary_rows with
    | [] => none
    | s :: _ =>
      some ⟨rowGet s "TotalRequests" (.num 0),
            rowGet s "ErrorCount4xx" (.num 0),
            rowGet s "ErrorCount5xx" (.num 0),
            pyRound1 (jvToQ (pyOr (rowGet s "AvgTimeTaken" (.num 0)) (.num 0))),
            pyRound1 (jvToQ (pyOr (rowGet s "P50TimeTaken" (.num 0)) (.num 0))),
            pyRound1 (jvToQ (pyOr (rowGet s "P90TimeTaken" (.num 0)) (.num 0))),
            pyRound1 (jvToQ (pyOr (rowGet s "P99TimeTaken" (.num 0)) (.num 0))),
            pyRound1 (jvToQ (pyOr (rowGet s "MaxTimeTaken" (.num 0)) (.num 0)))⟩
  let formatted_top_pages := top_pages.map (fun p =>
    (⟨rowGet p "csUriStem" (.str "Unknown"),
      rowGet p "RequestCount" (.num 0),
      pyRound1 (jvToQ (pyOr (rowGet p "AvgTimeTaken" (.num 0)) (.num 0)))⟩ : TopPageEntry))
  let total_for_pct : Int := (status_dist.map (fun s => jvToInt (rowGet s "Count" (.num 0)))).sum
  let formatted_status := status_dist.map (fun s =>
    let count := jvToInt (rowGet s "Count" (.num 0))
    (⟨rowGet s "scStatus" (.num 0),
      rowGet s "Count" (.num 0),
      pyRound1 (if 0 < total_for_pct then (count : ℚ) / (total_for_pct : ℚ) * 100 else 0)⟩ :
      StatusBucket))
  ⟨summary, formatted_top_pages, formatted_status⟩

/-- `get_dashboard_summary` (lines 225-335): the three aggregation
queries are issued sequentially; each response is checked for an error
dict immediately and returned as-is on failure, so a failure of query
`k` means queries after `k` are never issued.  The second component
counts the queries actually executed. -/
def get_dashboard_summary
    (summary_resp top_pages_resp status_resp : Except String AzureResponse) :
    Except String DashboardSummary × Nat :=
  match summary_resp with
  | .error e => (.error e, 1)
  | .ok r1 =>
    match top_pages_resp with
    | .error e => (.error e, 2)
    | .ok r2 =>
      match status_resp with
      | .error e => (.error e, 3)
      | .ok r3 =>
          (.ok (dashboard_compose (_parse_table_response r1) (_parse_table_response r2)
            (_parse_table_response r3)), 3)

/-! Helper lemmas. -/

theorem natToDigitsAux_head (fuel n : Nat) (h : n < fuel) :
    ∃ c cs, natToDigitsAux fuel n = c :: cs ∧ c.isDigit = true := by
  induction fuel generalizing n with
  | zero => omega
  | succ fuel' ih =>
    rw [natToDigitsAux]
    by_cases h10 : n < 10
    · refine ⟨Nat.digitChar n, [], by simp [h10], ?_⟩
      interval_cases n <;> decide
    · have hdiv : n / 10 < fuel' :=
        Nat.lt_of_lt_of_le (Nat.div_lt_self (by omega) (by omega)) (by omega)
      obtain ⟨c, cs, hc, hd⟩ := ih (n / 10) hdiv
      exact ⟨c, cs ++ [Nat.digitChar (n % 10)], by simp [h10, hc], hd⟩

theorem isDigit_ne_star (c : Char) (h : c.isDigit = true) : c ≠ '*' := by
  intro he; subst he; exact absurd h (by decide)

theorem natRepr_head (n : Nat) : (natRepr n).data.head? ≠ some '*' := by
  show (natToDigitsAux (n + 1) n).head? ≠ some '*'
  obtain ⟨c, cs, hc, hd⟩ := natToDigitsAux_head (n + 1) n (by omega)
  rw [hc]
  intro h
  exact isDigit_ne_star c hd (Option.some.inj h)

theorem jsonDumps_head (v : JValue) : (jsonDumps v).data.head? ≠ some '*' := by
  cases v with
  | null => simp only [jsonDumps]; decide
  | bool b => cases b <;> (simp only [jsonDumps]; decide)
  | num n =>
    simp only [jsonDumps]
    rw [intRepr]
    by_cases hneg : n < 0
    · simp only [hneg, if_true]
      rw [String.data_append]
      intro h
      exact absurd (Option.some.inj h) (by decide)
    · simp only [hneg, if_false]
      exact natRepr_head n.toNat
  | str s =>
    simp only [jsonDumps]
    rw [String.data_append, String.data_append]
    intro h
    exact absurd (Option.some.inj h) (by decide)
  | arr elems =>
    simp only [jsonDumps]
    rw [String.data_append, String.data_append]
    intro h
    exact absurd (Option.some.inj h) (by decide)
  | obj fields =>
    simp only [jsonDumps]
    rw [String.data_append, String.data_append]
    intro h
    exact absurd (Option.some.inj h) (by decide)

theorem jsonDumps_ne_noDataMarker (v : JValue) : jsonDumps v ≠ noDataMarker := by
  intro h
  exact jsonDumps_head v (by rw [h]; rfl)

theorem urlLine_ne_noDataMarker (u : String) : "**URL:** " ++ u ≠ noDataMarker := by
  intro h
  have hd := congrArg String.data h
  rw [String.data_append] at hd
  injection hd with h1 h2
  injection h2 with h3 h4
  exact absurd h3 (by decide)

theorem timeLine_ne_noDataMarker (t : String) : "**Time Range:** " ++ t ≠ noDataMarker := by
  intro h
  have hd := congrArg String.data h
  rw [String.data_append] at hd
  injection hd with h1 h2
  injection h2 with h3 h4
  exact absurd h3 (by decide)

theorem noDataMarker_notin_header (u t : String) : noDataMarker ∉ headerSections u t := by
  intro h
  simp only [headerSections, List.mem_cons, List.not_mem_nil, or_false] at h
  rcases h with h | h | h | h
  · exact absurd h (by decide)
  · exact urlLine_ne_noDataMarker u h.symm
  · exact timeLine_ne_noDataMarker t h.symm
  · exact absurd h (by decide)

theorem noDataMarker_notin_cwv (nr : PyDict) : noDataMarker ∉ cwvSections nr := by
  unfold cwvSections
  split
  · intro h
    simp only [List.mem_cons, List.not_mem_nil, or_false] at h
    rcases h with h | h | h
    · exact absurd h (by decide)
    · exact jsonDumps_ne_noDataMarker _ h.symm
    · exact absurd h (by decide)
  · exact List.not_mem_nil _

theorem noDataMarker_notin_slow (iis : PyDict) : noDataMarker ∉ slowSections iis := by
  unfold slowSections
  split
  · intro h
    simp only [List.mem_cons, List.not_mem_nil, or_false] at h
    rcases h with h | h | h
    · exact absurd h (by decide)
    · exact jsonDumps_ne_noDataMarker _ h.symm
    · exact absurd h (by decide)
  · exact List.not_mem_nil _

theorem buildSections_decomp (u t : String) (nr iis : PyDict) :
    buildSections u t nr iis =
      headerSections u t ++ cwvSections nr ++ slowSections iis ++ markerSections nr iis := by
  unfold buildSections cwvSections slowSections markerSections
  by_cases h1 : pyTruthy (dictGet nr (.str "core_web_vitals")) <;>
    by_cases h2 : pyTruthy (dictGet iis (.str "slow_requests")) <;>
      by_cases h3 : (!pyTruthyDict nr && !pyTruthyDict iis) = true <;>
        simp [h1, h2, h3, List.append_assoc]

theorem AIResult_shape (r : AIResult) :
    (∃ a m u, r = .success a m u) ∨ (∃ m, r = .error m) := by
  cases r with
  | success a m u => exact Or.inl ⟨a, m, u, rfl⟩
  | error m => exact Or.inr ⟨m, rfl⟩

theorem mem_insertByTimeDesc (a x : IISRow) (l : List IISRow) :
    x ∈ insertByTimeDesc a l ↔ x = a ∨ x ∈ l := by
  induction l with
  | nil => simp [insertByTimeDesc]
  | cons b bs ih =>
    rw [insertByTimeDesc]
    split
    · simp only [List.mem_cons, ih]
      tauto
    · exact List.mem_cons

theorem mem_sortByTimeDesc (x : IISRow) (l : List IISRow) :
    x ∈ sortByTimeDesc l ↔ x ∈ l := by
  induction l with
  | nil => simp [sortByTimeDesc]
  | cons a rest ih =>
    rw [sortByTimeDesc, mem_insertByTimeDesc]
    simp [ih]

theorem pairwise_insertByTimeDesc (a : IISRow) (l : List IISRow)
    (h : l.Pairwise (fun x y => y.timeGenerated ≤ x.timeGenerated)) :
    (insertByTimeDesc a l).Pairwise (fun x y => y.timeGenerated ≤ x.timeGenerated) := by
  induction l with
  | nil => simp [insertByTimeDesc]
  | cons b bs ih =>
    rw [insertByTimeDesc]
    rcases List.pairwise_cons.mp h with ⟨hb, hbs⟩
    split
    · rename_i hle
      refine List.pairwise_cons.mpr ⟨?_, ih hbs⟩
      intro x hx
      rcases (mem_insertByTimeDesc a x bs).mp hx with rfl | hxbs
      · exact hle
      · exact hb x hxbs
    · rename_i hgt
      push_neg at hgt
      refine List.pairwise_cons.mpr ⟨?_, h⟩
      intro x hx
      rcases List.mem_cons.mp hx with rfl | hxbs
      · omega
      · have := hb x hxbs
        omega

theorem pairwise_sortByTimeDesc (l : List IISRow) :
    (sortByTimeDesc l).Pairwise (fun x y => y.timeGenerated ≤ x.timeGenerated) := by
  induction l with
  | nil => simp [sortByTimeDesc]
  | cons a rest ih => exact pairwise_insertByTimeDesc a _ ih

theorem strEndsWith_imp_kql (s t : String) (h : strEndsWith s t = true) :
    kqlEndsWith s t = true := by
  rw [strEndsWith, decide_eq_true_iff] at h
  rw [kqlEndsWith, strEndsWith, decide_eq_true_iff]
  exact h.map Char.toLower

/-! Claim theorems. -/

/-- Claim C1: every invocation of `run_parallel_analysis` (0, 1 or 2
requested providers) yields a result map with exactly one entry per
requested provider — an entry is present iff the provider's service was
passed — every present entry is a success record or a structured error
record, and a requested provider whose credential is missing/empty gets
the "API key not configured" failure, independently of what the actual
call would have done (so it is distinct from an attempted-and-failed
call). -/
theorem run_parallel_analysis_entries
    (claude_service : Option ClaudeService) (openai_service : Option OpenAIService)
    (ccall : ClaudeCallOutcome) (ocall : OpenAICallOutcome) :
    ((run_parallel_analysis claude_service openai_service ccall ocall).claude.isSome
        = claude_service.isSome)
  ∧ ((run_parallel_analysis claude_service openai_service ccall ocall).openai.isSome
        = openai_service.isSome)
  ∧ (∀ r, (run_parallel_analysis claude_service openai_service ccall ocall).claude = some r →
        (∃ a m u, r = .success a m u) ∨ (∃ m, r = .error m))
  ∧ (∀ r, (run_parallel_analysis claude_service openai_service ccall ocall).openai = some r →
        (∃ a m u, r = .success a m u) ∨ (∃ m, r = .error m))
  ∧ (∀ svc, claude_service = some svc → pyFalsyKey svc.api_key = true →
        (run_parallel_analysis claude_service openai_service ccall ocall).claude
          = some (.error "Claude API key not configured"))
  ∧ (∀ svc, openai_service = some svc → pyFalsyKey svc.api_key = true →
        (run_parallel_analysis claude_service openai_service ccall ocall).openai
          = some (.error "OpenAI API key not configured")) := by
  refine ⟨?_, ?_, fun r _ => AIResult_shape r, fun r _ => AIResult_shape r, ?_, ?_⟩
  · cases claude_service <;> rfl
  · cases openai_service <;> rfl
  · rintro svc rfl hkey
    simp [run_parallel_analysis, run_parallel_jobs, claude_analyze, hkey]
  · rintro svc rfl hkey
    simp [run_parallel_analysis, run_parallel_jobs, openai_analyze, hkey]

/-- Witness for C1 at a concrete input: a requested Claude provider with
no API key is reported as the "not configured" failure. -/
theorem run_parallel_analysis_entries_witness :
    pyFalsyKey (ClaudeService.mk none "claude-sonnet-4-20250514").api_key = true
  ∧ (run_parallel_analysis (some ⟨none, "claude-sonnet-4-20250514"⟩) none
        .rateLimitError (.ok "" 0 0)).claude
      = some (.error "Claude API key not configured") :=
  ⟨rfl, (run_parallel_analysis_entries (some ⟨none, "claude-sonnet-4-20250514"⟩) none
      .rateLimitError (.ok "" 0 0)).2.2.2.2.1 ⟨none, "claude-sonnet-4-20250514"⟩ rfl rfl⟩

/-- Claim C2: when one provider's submitted `analyze` call raises (the
executor observes `Except.error`) while the sibling's call succeeds, the
orchestrator converts the exception into a failure entry scoped to the
raising provider and the sibling's entry is exactly its success record —
in both directions. -/
theorem run_parallel_jobs_sibling_isolation (e analysis modelId : String)
    (usage : List (String × Nat)) :
    run_parallel_jobs (some (.error e)) (some (.ok (.success analysis modelId usage)))
      = ⟨some (.error ("Unexpected error from claude: " ++ e)),
         some (.success analysis modelId usage)⟩
  ∧ run_parallel_jobs (some (.ok (.success analysis modelId usage))) (some (.error e))
      = ⟨some (.success analysis modelId usage),
         some (.error ("Unexpected error from openai: " ++ e))⟩ :=
  ⟨rfl, rfl⟩

/-- Counterexample to claim C3 as stated: `performance_overview` returned
data (it is truthy in `newrelic_data`), yet the assembled document is
exactly the bare four-line header — no section for it (nor any other) is
rendered, contradicting "one section for each of the seven source
categories that actually returned data". -/
theorem build_user_message_seven_sections_cex :
    buildSections "/checkout" "1 hour ago"
        [(JKey.str "performance_overview", JValue.num 1)] []
      = headerSections "/checkout" "1 hour ago"
  ∧ pyTruthy (dictGet [(JKey.str "performance_overview", JValue.num 1)]
        (JKey.str "performance_overview")) = true :=
  ⟨rfl, rfl⟩

/-- Amended claim C3: the assembled document is the fixed header followed
by at most two data sections in a fixed order — Core Web Vitals (iff
`newrelic_data['core_web_vitals']` is truthy) then URL-filtered IIS log
rows (iff `iis_data['slow_requests']` is truthy) then possibly the
no-data marker; each of these blocks is omitted entirely when its source
has no data; the other five categories (performance overview, APM,
dashboard summary, status distribution, top pages) are never rendered —
their values do not influence the document. -/
theorem build_user_message_rendered_sections (u t : String) (nr iis : PyDict) (v w : JValue) :
    (buildSections u t nr iis =
      headerSections u t ++ cwvSections nr ++ slowSections iis ++ markerSections nr iis)
  ∧ (buildSections u t ((.str "performance_overview", v) :: (.str "apm_metrics", w) :: nr) iis
      = buildSections u t
          ((.str "performance_overview", .null) :: (.str "apm_metrics", .null) :: nr) iis) := by
  constructor
  · exact buildSections_decomp u t nr iis
  · rw [buildSections_decomp, buildSections_decomp]
    have hget : ∀ x y : JValue,
        dictGet ((JKey.str "performance_overview", x) :: (JKey.str "apm_metrics", y) :: nr)
          (JKey.str "core_web_vitals") = dictGet nr (JKey.str "core_web_vitals") := by
      intro x y
      rw [dictGet, if_neg (by decide), dictGet, if_neg (by decide)]
    unfold cwvSections markerSections
    rw [hget, hget]
    simp [pyTruthyDict]

/-- Counterexample to claim C4 as stated: a run on which every source is
empty — all seven category values are falsy (`apm_metrics` returned an
empty list, every other category is absent) — so the claim demands the
no-data marker, yet the document does not carry it: the code keys the
marker on the truthiness of the two dicts as wholes, and `newrelic_data`
is a nonempty dict even though the value it holds is empty. -/
theorem build_user_message_marker_cex :
    pyTruthy (dictGet [(JKey.str "apm_metrics", JValue.arr [])]
        (JKey.str "core_web_vitals")) = false
  ∧ pyTruthy (dictGet [(JKey.str "apm_metrics", JValue.arr [])]
        (JKey.str "performance_overview")) = false
  ∧ pyTruthy (dictGet [(JKey.str "apm_metrics", JValue.arr [])]
        (JKey.str "apm_metrics")) = false
  ∧ pyTruthy (dictGet ([] : PyDict) (JKey.str "summary")) = false
  ∧ pyTruthy (dictGet ([] : PyDict) (JKey.str "status_distribution")) = false
  ∧ pyTruthy (dictGet ([] : PyDict) (JKey.str "top_pages")) = false
  ∧ pyTruthy (dictGet ([] : PyDict) (JKey.str "slow_requests")) = false
  ∧ noDataMarker ∉ buildSections "/checkout" "1 hour ago"
      [(JKey.str "apm_metrics", JValue.arr [])] [] := by
  refine ⟨rfl, rfl, rfl, rfl, rfl, rfl, rfl, ?_⟩
  decide

/-- Amended claim C4: the document carries the no-data marker exactly
when both source dicts are empty (falsy) as wholes — so the marker never
appears when either source dict holds anything, and it always appears
when both are empty. -/
theorem build_user_message_marker_iff (u t : String) (nr iis : PyDict) :
    noDataMarker ∈ buildSections u t nr iis
      ↔ (pyTruthyDict nr = false ∧ pyTruthyDict iis = false) := by
  rw [buildSections_decomp]
  simp only [List.mem_append]
  constructor
  · rintro (((h | h) | h) | h)
    · exact absurd h (noDataMarker_notin_header u t)
    · exact absurd h (noDataMarker_notin_cwv nr)
    · exact absurd h (noDataMarker_notin_slow iis)
    · unfold markerSections at h
      split at h
      · rename_i hcond
        simp only [Bool.and_eq_true, Bool.not_eq_true'] at hcond
        exact hcond
      · exact absurd h (List.not_mem_nil _)
  · rintro ⟨h1, h2⟩
    refine Or.inr ?_
    unfold markerSections
    rw [h1, h2]
    simp

/-- Counterexample to claim C5 as stated: a row with three top-level
scalar keys in ascending percentile order.  The claimed fallback would
return all three values as p50/p75/p90; the code returns only the first
key's value as p50 and leaves p75/p90 null. -/
theorem extract_percentiles_fallback_cex :
    _extract_percentiles
        [[(JKey.str "a", JValue.num 1), (JKey.str "b", JValue.num 2),
          (JKey.str "c", JValue.num 3)]]
      = ⟨JValue.num 1, JValue.null, JValue.null⟩
  ∧ _extract_percentiles
        [[(JKey.str "a", JValue.num 1), (JKey.str "b", JValue.num 2),
          (JKey.str "c", JValue.num 3)]]
      ≠ ⟨JValue.num 1, JValue.num 2, JValue.num 3⟩ := by
  refine ⟨rfl, ?_⟩
  intro h
  have h2 : JValue.null = JValue.num 2 := congrArg Percentiles.p75 h
  exact JValue.noConfusion h2

/-- Amended claim C5: `_extract_percentiles` returns all-null on empty
input; on a row whose first key holds a nested dict with truthy values
under the percentile keys 50/75/90 it returns exactly those three values
(including the spec's own example row); but when the first key's value is
not a dict, the fallback uses that single value as p50 and leaves p75 and
p90 null — no three-key positional fallback exists. -/
theorem extract_percentiles_shapes :
    (_extract_percentiles [] = ⟨.null, .null, .null⟩)
  ∧ (∀ (k : JKey) (pd rest : PyDict) (rows : List PyDict) (v50 v75 v90 : JValue),
      dictGet pd (.str "50") = v50 → pyTruthy v50 = true →
      dictGet pd (.str "75") = v75 → pyTruthy v75 = true →
      dictGet pd (.str "90") = v90 → pyTruthy v90 = true →
      _extract_percentiles (((k, .obj pd) :: rest) :: rows) = ⟨v50, v75, v90⟩)
  ∧ (_extract_percentiles
        [[(JKey.str "LCP_ms", JValue.obj
            [(JKey.str "50", JValue.num 1104), (JKey.str "75", JValue.num 1584),
             (JKey.str "90", JValue.num 2656)])]]
      = ⟨JValue.num 1104, JValue.num 1584, JValue.num 2656⟩)
  ∧ (∀ (k : JKey) (v : JValue) (rest : PyDict) (rows : List PyDict),
      (∀ fields, v ≠ .obj fields) →
      _extract_percentiles (((k, v) :: rest) :: rows) = ⟨v, .null, .null⟩) := by
  refine ⟨rfl, ?_, rfl, ?_⟩
  · intro k pd rest rows v50 v75 v90 h50 t50 h75 t75 h90 t90
    simp only [_extract_percentiles]
    rw [h50, h75, h90]
    unfold pyOr
    rw [if_pos t50, if_pos t75, if_pos t90]
  · intro k v rest rows hv
    cases v with
    | obj fields => exact absurd rfl (hv fields)
    | null => rfl
    | bool b => rfl
    | num n => rfl
    | str s => rfl
    | arr elems => rfl

/-- Witness for amended C5 at concrete inputs: the nested shape and the
single-value fallback. -/
theorem extract_percentiles_shapes_witness :
    _extract_percentiles [[(JKey.str "m",
        JValue.obj [(JKey.str "50", JValue.num 7), (JKey.str "75", JValue.num 8),
                    (JKey.str "90", JValue.num 9)])]]
      = ⟨JValue.num 7, JValue.num 8, JValue.num 9⟩
  ∧ _extract_percentiles [[(JKey.str "m", JValue.num 5)]]
      = ⟨JValue.num 5, JValue.null, JValue.null⟩ :=
  ⟨extract_percentiles_shapes.2.1 (JKey.str "m")
      [(JKey.str "50", JValue.num 7), (JKey.str "75", JValue.num 8),
       (JKey.str "90", JValue.num 9)] [] []
      (JValue.num 7) (JValue.num 8) (JValue.num 9) rfl rfl rfl rfl rfl rfl,
   extract_percentiles_shapes.2.2.2 (JKey.str "m") (JValue.num 5) [] []
      (fun _ h => JValue.noConfusion h)⟩

/-- Claim C10: in the nested shape, a percentile whose string key holds
exactly 0 while the integer key is absent comes out as null — the `or`
chaining of the two lookups erases an exact-zero measurement. -/
theorem extract_percentiles_zero_is_null
    (k : JKey) (pd rest : PyDict) (rows : List PyDict) :
    (dictGet pd (.str "50") = .num 0 → dictGet pd (.int 50) = .null →
      (_extract_percentiles (((k, .obj pd) :: rest) :: rows)).p50 = .null)
  ∧ (dictGet pd (.str "75") = .num 0 → dictGet pd (.int 75) = .null →
      (_extract_percentiles (((k, .obj pd) :: rest) :: rows)).p75 = .null)
  ∧ (dictGet pd (.str "90") = .num 0 → dictGet pd (.int 90) = .null →
      (_extract_percentiles (((k, .obj pd) :: rest) :: rows)).p90 = .null) := by
  refine ⟨?_, ?_, ?_⟩ <;>
    (intro h1 h2
     simp only [_extract_percentiles]
     rw [h1, h2]
     rfl)

/-- Witness for C10: a row whose nested dict binds the string key "50"
to 0 and has no integer key 50 yields a null p50. -/
theorem extract_percentiles_zero_is_null_witness :
    dictGet [(JKey.str "50", JValue.num 0)] (JKey.str "50") = JValue.num 0
  ∧ dictGet [(JKey.str "50", JValue.num 0)] (JKey.int 50) = JValue.null
  ∧ (_extract_percentiles [[(JKey.str "m",
        JValue.obj [(JKey.str "50", JValue.num 0)])]]).p50 = JValue.null :=
  ⟨rfl, rfl,
   (extract_percentiles_zero_is_null (JKey.str "m") [(JKey.str "50", JValue.num 0)] [] []).1
     rfl rfl⟩

/-- Counterexample to claim C6 as stated: the service-side time-range
parser raises `ValueError` on the non-numeric leading token "garbage"
instead of returning the 60-minute default. -/
theorem parse_time_range_garbage_cex :
    _parse_time_range_minutes "garbage" = .error .valueError
  ∧ _parse_time_range_minutes "garbage" ≠ .ok 60 := by
  refine ⟨rfl, ?_⟩
  intro h
  exact Except.noConfusion h

/-- The route-level parser is the service-side parser with the
`try/except` fallback to 60 wrapped around it. -/
theorem parse_time_range_agreement (s : String) :
    _parse_time_range_to_minutes s =
      (match _parse_time_range_minutes s with
       | .ok v => v
       | .error _ => 60) := by
  unfold _parse_time_range_to_minutes _parse_time_range_minutes
  cases pySplitWs (lowerStr s) with
  | nil => rfl
  | cons p0 rest =>
    cases hi : pyInt p0 with
    | none => simp only [hi]
    | some value =>
      cases rest with
      | nil => simp only [hi]
      | cons u0 tail => simp only [hi]

/-- Amended claim C6: both parsers extract a leading integer and a
minute/hour/day unit token and convert to minutes, and agree whenever
the service-side parser succeeds; only the route-level parser
(`_parse_time_range_to_minutes`, wrapped in `try/except`) defaults to 60
on a parse failure such as "garbage" — the service-side
`_parse_time_range_minutes` raises there. -/
theorem parse_time_range_behavior :
    (_parse_time_range_to_minutes "3 hours ago" = 180)
  ∧ (_parse_time_range_to_minutes "45 minutes ago" = 45)
  ∧ (_parse_time_range_to_minutes "2 days ago" = 2880)
  ∧ (_parse_time_range_to_minutes "garbage" = 60)
  ∧ (_parse_time_range_minutes "3 hours ago" = .ok 180)
  ∧ (∀ s v, _parse_time_range_minutes s = .ok v → _parse_time_range_to_minutes s = v) := by
  refine ⟨by decide, by decide, by decide, by decide, rfl, ?_⟩
  intro s v h
  rw [parse_time_range_agreement s, h]

/-- Witness for amended C6: the agreement clause applied at a concrete
input on which the service-side parser succeeds. -/
theorem parse_time_range_behavior_witness :
    _parse_time_range_minutes "5 hours ago" = .ok 300
  ∧ _parse_time_range_to_minutes "5 hours ago" = 300 :=
  ⟨rfl, parse_time_range_behavior.2.2.2.2.2 "5 hours ago" 300 rfl⟩

/-- Cache hit in `_get_token`: a nonempty cached token with an unexpired
expiry is returned unchanged and no fetch happens. -/
theorem get_token_cached (tok : String) (e now : Int) (f : TokenFetchOutcome)
    (h1 : tok ≠ "") (h2 : now < e) :
    _get_token ⟨some tok, some e⟩ now f = ⟨.tok tok, ⟨some tok, some e⟩, false⟩ := by
  unfold _get_token
  exact if_pos ⟨h1, h2⟩

/-- Cache miss in `_get_token` on an expired entry: the acquisition
branch runs. -/
theorem get_token_expired (tok : String) (e now : Int) (f : TokenFetchOutcome)
    (h2 : ¬ now < e) :
    _get_token ⟨some tok, some e⟩ now f = _acquire_token ⟨some tok, some e⟩ now f := by
  unfold _get_token
  exact if_neg (fun hc => h2 hc.2)

/-- Claim C7: after a token is acquired at `T` with lifetime `E`
(`expires_in`), the cache expiry is `T + E - 60`; any later call at `t`
reuses the cached token unchanged with no fetch iff `t < T + E - 60`,
and at or past the bound the endpoint is contacted again and the fresh
token (never the stale one) is returned and cached.  Concretely with
`E = 3600`: the call at `T + 3000` is a reuse, the call at `T + 3560`
is a re-acquisition. -/
theorem get_token_cache_bound (T E : Int) (atok : String) (h : atok ≠ "") :
    (_get_token ⟨none, none⟩ T (.ok atok (some E))
        = ⟨.tok atok, ⟨some atok, some (T + E - 60)⟩, true⟩)
  ∧ (∀ t f, t < T + E - 60 →
        _get_token ⟨some atok, some (T + E - 60)⟩ t f
          = ⟨.tok atok, ⟨some atok, some (T + E - 60)⟩, false⟩)
  ∧ (∀ t f, ¬ t < T + E - 60 →
        (_get_token ⟨some atok, some (T + E - 60)⟩ t f).fetched = true)
  ∧ (∀ t atok2 e2, ¬ t < T + E - 60 →
        _get_token ⟨some atok, some (T + E - 60)⟩ t (.ok atok2 e2)
          = ⟨.tok atok2, ⟨some atok2, some (t + e2.getD 3600 - 60)⟩, true⟩)
  ∧ (E = 3600 → ∀ f,
        _get_token ⟨some atok, some (T + E - 60)⟩ (T + 3000) f
          = ⟨.tok atok, ⟨some atok, some (T + E - 60)⟩, false⟩)
  ∧ (E = 3600 → ∀ atok2 e2,
        _get_token ⟨some atok, some (T + E - 60)⟩ (T + 3560) (.ok atok2 e2)
          = ⟨.tok atok2, ⟨some atok2, some (T + 3560 + e2.getD 3600 - 60)⟩, true⟩) := by
  refine ⟨rfl, ?_, ?_, ?_, ?_, ?_⟩
  · intro t f ht
    exact get_token_cached atok (T + E - 60) t f h ht
  · intro t f ht
    rw [get_token_expired atok (T + E - 60) t f ht]
    cases f <;> rfl
  · intro t atok2 e2 ht
    rw [get_token_expired atok (T + E - 60) t (.ok atok2 e2) ht]
    rfl
  · intro hE f
    subst hE
    exact get_token_cached atok (T + 3600 - 60) (T + 3000) f h (by omega)
  · intro hE atok2 e2
    subst hE
    rw [get_token_expired atok (T + 3600 - 60) (T + 3560) (.ok atok2 e2) (by omega)]
    rfl

/-- Witness for C7 at `T = 0`, `E = 3600`: the call at 3000 seconds
reuses the cached token without fetching; the call at 3560 seconds
re-acquires and returns the fresh token. -/
theorem get_token_cache_bound_witness :
    ("tok" : String) ≠ ""
  ∧ _get_token ⟨some "tok", some (0 + 3600 - 60)⟩ (0 + 3000) (.requestError "boom")
      = ⟨.tok "tok", ⟨some "tok", some (0 + 3600 - 60)⟩, false⟩
  ∧ _get_token ⟨some "tok", some (0 + 3600 - 60)⟩ (0 + 3560) (.ok "fresh" (some 3600))
      = ⟨.tok "fresh", ⟨some "fresh", some (0 + 3560 + (some (3600 : Int)).getD 3600 - 60)⟩,
         true⟩ :=
  ⟨by decide,
   (get_token_cache_bound 0 3600 "tok" (by decide)).2.2.2.2.1 rfl (.requestError "boom"),
   (get_token_cache_bound 0 3600 "tok" (by decide)).2.2.2.2.2 rfl "fresh" (some 3600)⟩

/-- Claim C8: for every combination of the optional filters and any
limit, `search_logs` never returns a row whose path ends in one of the
ten static-asset suffixes, the returned rows are ordered by timestamp
descending, and the result is capped at the supplied limit. -/
theorem search_logs_invariants (start_date end_date : Int)
    (url_filter status_code site_name : Option String) (limit : Nat) (table : List IISRow) :
    (∀ r, r ∈ search_logs start_date end_date url_filter status_code site_name limit table →
       ∀ ext, ext ∈ static_extensions → strEndsWith r.csUriStem ext = false)
  ∧ (search_logs start_date end_date url_filter status_code site_name limit table).Pairwise
      (fun a b => b.timeGenerated ≤ a.timeGenerated)
  ∧ (search_logs start_date end_date url_filter status_code site_name limit table).length
      ≤ limit := by
  refine ⟨?_, ?_, ?_⟩
  · intro r hr ext hext
    have hr1 : r ∈ sortByTimeDesc (table.filter
        (search_logs_pred start_date end_date url_filter status_code site_name)) :=
      List.mem_of_mem_take hr
    have hr2 := (mem_sortByTimeDesc r _).mp hr1
    have hpred := (List.mem_filter.mp hr2).2
    unfold search_logs_pred at hpred
    simp only [Bool.and_eq_true] at hpred
    have hall := hpred.1.1.1.2
    rw [List.all_eq_true] at hall
    have hk := hall ext hext
    cases hsw : strEndsWith r.csUriStem ext with
    | false => rfl
    | true =>
      exfalso
      have hkq := strEndsWith_imp_kql r.csUriStem ext hsw
      rw [hkq] at hk
      exact absurd hk (by decide)
  · exact List.Pairwise.sublist (List.take_sublist _ _) (pairwise_sortByTimeDesc _)
  · exact List.length_take_le _ _

/-- Witness for C8: a one-row table; the returned row's path does not
end in ".css". -/
theorem search_logs_invariants_witness :
    (⟨5, "GET", "/home/page", "", "200", 10, "1.2.3.4", "site", 100⟩ : IISRow) ∈
        search_logs 0 10 none none none 5
          [⟨5, "GET", "/home/page", "", "200", 10, "1.2.3.4", "site", 100⟩]
  ∧ ".css" ∈ static_extensions
  ∧ strEndsWith "/home/page" ".css" = false :=
  ⟨by decide, by decide,
   (search_logs_invariants 0 10 none none none 5
       [⟨5, "GET", "/home/page", "", "200", 10, "1.2.3.4", "site", 100⟩]).1
     ⟨5, "GET", "/home/page", "", "200", 10, "1.2.3.4", "site", 100⟩ (by decide)
     ".css" (by decide)⟩

/-- Counterexample to claim C9 as stated: the summary query fails while
the top-pages and status queries would succeed with data, yet
`get_dashboard_summary` returns the bare error dict after issuing only
the first query — no partial summary composing the other two results is
produced, so a failure of one query does abort the whole aggregation. -/
theorem dashboard_summary_abort_cex :
    get_dashboard_summary (.error "Query failed")
        (.ok ⟨[⟨["csUriStem", "RequestCount"], [[JValue.str "/a", JValue.num 3]]⟩]⟩)
        (.ok ⟨[⟨["scStatus", "Count"], [[JValue.str "200", JValue.num 3]]⟩]⟩)
      = (.error "Query failed", 1) := rfl

/-- Amended claim C9: the three aggregation queries are issued
sequentially, each checked at its own boundary; the first error aborts
`get_dashboard_summary` immediately — that error dict is returned
unchanged, later queries are not issued (the issue count stops at the
failing query) — and only when all three succeed is the composed summary
returned. -/
theorem dashboard_summary_error_flow :
    (∀ e o2 o3, get_dashboard_summary (.error e) o2 o3 = (.error e, 1))
  ∧ (∀ r1 e o3, get_dashboard_summary (.ok r1) (.error e) o3 = (.error e, 2))
  ∧ (∀ r1 r2 e, get_dashboard_summary (.ok r1) (.ok r2) (.error e) = (.error e, 3))
  ∧ (∀ r1 r2 r3, get_dashboard_summary (.ok r1) (.ok r2) (.ok r3)
      = (.ok (dashboard_compose (_parse_table_response r1) (_parse_table_response r2)
          (_parse_table_response r3)), 3)) :=
  ⟨fun _ _ _ => rfl, fun _ _ _ => rfl, fun _ _ _ => rfl, fun _ _ _ => rfl⟩
